import Mathlib

/-!
Verification of the `tere` terminal directory browser.

The repository ships `src/main.rs`, the TUI layer (`TereTui`): it wraps an
application-state object `TereAppState` (declared as `mod app_state`, whose
source file is not part of the repository snapshot) and drives it from a
synchronous event loop.  Definitions below are of two kinds:

* embeddings of `src/main.rs` (the `TereTui` wrappers, `handle_event` for one
  iteration of `main_event_loop`, `footer_extra_msg` for `redraw_footer`, and
  `main`); terminal drawing calls are elided, as they only produce output;
* models of the missing `app_state.rs`, marked `Modelled from the spec:`,
  built from the specification's description of `DirectoryListing`,
  `ViewportCursorModel`, `IncrementalSearchEngine` and `NavigationController`.

The filesystem boundary is abstracted as an `Fs` record (`load` and `parent`),
matching the specification's external-interface section.
-/

namespace Tere

/-- One filesystem child entry (`CustomDirEntry` of `app_state`): a display
name and a directory-kind flag. -/
structure CustomDirEntry where
  name : String
  is_dir : Bool
deriving DecidableEq, Repr

/-- Error kinds of directory loading, from the specification's error model:
`NotFound`, `PermissionDenied`, `NotADirectory`, plus an `IoError` wrapper. -/
inductive NavError
  | notFound
  | permissionDenied
  | notADirectory
  | ioError (msg : String)
deriving DecidableEq, Repr

/-- The user-visible rendering of a directory-loading error (the `Display`
formatting used by `error_message` in release builds). -/
def errorDisplay : NavError → String
  | NavError.notFound => "no such file or directory"
  | NavError.permissionDenied => "permission denied"
  | NavError.notADirectory => "not a directory"
  | NavError.ioError msg => msg

/-- The filesystem boundary: `load` enumerates (and sorts/filters) the entries
of a directory or fails with a `NavError`; `parent` returns the parent
directory of a path, or `none` at a filesystem root. -/
structure Fs where
  load : String → Except NavError (List CustomDirEntry)
  parent : String → Option String

/-- The application state (`TereAppState` of `app_state`).  `cursor_pos` is the
cursor row relative to the top of the viewport and `scroll_pos` the listing
index of the first visible row, exactly as `main.rs` reads them
(`cursor_pos + scroll_pos` is the absolute listing index, see `redraw_footer`);
`ls_output_buf` is the current directory listing. -/
structure TereAppState where
  current_path : String
  ls_output_buf : List CustomDirEntry
  cursor_pos : Nat
  scroll_pos : Nat
  main_win_w : Nat
  main_win_h : Nat
  header_msg : String
  info_msg : String
  search_active : Bool
  search_string : String
  search_matches : List Nat
  current_match_pointer : Option Nat
deriving DecidableEq, Repr

/-- The absolute cursor: the listing index of the selected entry
(`cursor_pos + scroll_pos` in `main.rs`, written scroll-first here). -/
def TereAppState.absCursor (s : TereAppState) : Nat :=
  s.scroll_pos + s.cursor_pos

/-- Modelled from the spec: the `Searching` state mirrors `SearchState.active`
(`is_searching` of the missing `app_state.rs`). -/
def TereAppState.is_searching (s : TereAppState) : Bool :=
  s.search_active

/-- Modelled from the spec: place the absolute cursor at `n` and recompute the
scroll offset with the minimal-scroll rule of `ViewportCursorModel`: if the new
cursor is above the current viewport the scroll offset becomes the cursor
index, if below it becomes `cursor - viewport_height + 1`, otherwise it is
unchanged. -/
def TereAppState.set_abs_cursor (s : TereAppState) (n : Nat) : TereAppState :=
  let newScroll : Nat :=
    if n < s.scroll_pos then n
    else if s.scroll_pos + s.main_win_h ≤ n then n + 1 - s.main_win_h
    else s.scroll_pos
  { s with scroll_pos := newScroll, cursor_pos := n - newScroll }

/-- Modelled from the spec: `ViewportCursorModel.move_cursor` of the missing
`app_state.rs`.  The new absolute index is `current + delta`, clamped to
`[0, len-1]` if `wrap` is false and reduced modulo `len` if `wrap` is true;
a no-op on an empty listing. -/
def TereAppState.move_cursor (s : TereAppState) (amount : Int) (wrap : Bool) : TereAppState :=
  let len := s.ls_output_buf.length
  if len = 0 then s
  else
    let target : Int := (s.absCursor : Int) + amount
    let newAbs : Nat :=
      if wrap then (target % (len : Int)).toNat
      else (max 0 (min ((len : Int) - 1) target)).toNat
    s.set_abs_cursor newAbs

/-- Modelled from the spec: `ViewportCursorModel.move_cursor_to` of the missing
`app_state.rs`: clamp the target to `[0, len-1]`, set the cursor directly, and
recompute scroll with the minimal-scroll rule; a no-op on an empty listing. -/
def TereAppState.move_cursor_to (s : TereAppState) (target : Nat) : TereAppState :=
  let len := s.ls_output_buf.length
  if len = 0 then s
  else s.set_abs_cursor (min target (len - 1))

/-- Does the character list `q` occur at the very start of `l`? -/
def charsPrefixOf : List Char → List Char → Bool
  | [], _ => true
  | _ :: _, [] => false
  | a :: qs, b :: ns => a == b && charsPrefixOf qs ns

/-- Does the character list `q` occur contiguously anywhere inside `l`? -/
def charsContain (q : List Char) : List Char → Bool
  | [] => charsPrefixOf q []
  | b :: ns => charsPrefixOf q (b :: ns) || charsContain q ns

/-- The match rule of `IncrementalSearchEngine`: the entry name contains the
query as a contiguous case-sensitive substring. -/
def nameContains (name : String) (query : String) : Bool :=
  charsContain query.data name.data

/-- Modelled from the spec: the full rescan of the listing performed on every
search-string change — the ascending list of listing indices whose entry name
satisfies the match rule. -/
def computeMatches (buf : List CustomDirEntry) (query : String) : List Nat :=
  (List.range buf.length).filter fun i =>
    match buf.get? i with
    | some e => nameContains e.name query
    | none => false

/-- Modelled from the spec: recompute `matches` over the current listing; the
current-match pointer is not pinned down by the specification beyond being an
optional index into `matches`, and is modelled as the first match when any
exists. -/
def TereAppState.update_search_matches (s : TereAppState) : TereAppState :=
  let ms := computeMatches s.ls_output_buf s.search_string
  { s with search_matches := ms,
           current_match_pointer := if ms.isEmpty then none else some 0 }

/-- Modelled from the spec: `IncrementalSearchEngine.advance` of the missing
`app_state.rs`: append to the query, set `active`, recompute `matches`.  When
exactly one match remains the spec's auto-select behavior moves the cursor onto
that match before the caller (`on_search_char` in `main.rs`, which performs no
cursor move of its own) executes `EnterSelected`; since `app_state.rs` is
missing, that move is modelled here. -/
def TereAppState.advance_search (s : TereAppState) (query : String) : TereAppState :=
  let s1 := { s with search_string := s.search_string ++ query, search_active := true }
  let s2 := s1.update_search_matches
  match s2.search_matches with
  | [m] => s2.move_cursor_to m
  | _ => s2

/-- Modelled from the spec: `IncrementalSearchEngine.erase_last_char` of the
missing `app_state.rs`: drop the last query character (no-op when empty) and
recompute `matches`; `active` is left as it is. -/
def TereAppState.erase_search_char (s : TereAppState) : TereAppState :=
  let s1 := { s with search_string := s.search_string.dropRight 1 }
  s1.update_search_matches

/-- Modelled from the spec: `IncrementalSearchEngine.clear` of the missing
`app_state.rs`: `active := false`, empty query, empty matches. -/
def TereAppState.clear_search (s : TereAppState) : TereAppState :=
  { s with search_active := false, search_string := "",
           search_matches := [], current_match_pointer := none }

/-- Modelled from the spec: `ViewportCursorModel.move_cursor_to_adjacent_match`
of the missing `app_state.rs`: jump to the nearest match strictly before
(`dir < 0`) or after (`dir ≥ 0`) the cursor, wrapping around the match list; a
no-op when there are no matches. -/
def TereAppState.move_cursor_to_adjacent_match (s : TereAppState) (dir : Int) : TereAppState :=
  match s.search_matches with
  | [] => s
  | m0 :: ms =>
    let all := m0 :: ms
    let abs := s.absCursor
    let target :=
      if dir < 0 then
        match (all.filter fun m => m < abs).getLast? with
        | some m => m
        | none => all.getLastD m0
      else
        match all.find? fun m => abs < m with
        | some m => m
        | none => m0
    let s1 := s.move_cursor_to target
    { s1 with current_match_pointer := some (all.indexOf target) }

/-- Modelled from the spec: `ViewportCursorModel.resize` of the missing
`app_state.rs` (`update_main_window_dimensions`): record the new dimensions,
then re-clamp scroll and cursor so the cursor stays visible and the scroll
offset never exceeds `max(0, len - viewport_height)`. -/
def TereAppState.update_main_window_dimensions (s : TereAppState) (w hgt : Nat) : TereAppState :=
  let s1 := { s with main_win_w := w, main_win_h := hgt }
  let len := s1.ls_output_buf.length
  if len = 0 then { s1 with cursor_pos := 0, scroll_pos := 0 }
  else
    let abs := min (s1.scroll_pos + s1.cursor_pos) (len - 1)
    let scroll1 := min s1.scroll_pos (len - hgt)
    let scroll2 := if scroll1 + hgt ≤ abs then abs + 1 - hgt else scroll1
    { s1 with scroll_pos := scroll2, cursor_pos := abs - scroll2 }

/-- Modelled from the spec: `update_header` of the missing `app_state.rs` —
the header shows the current path. -/
def TereAppState.update_header (s : TereAppState) : TereAppState :=
  { s with header_msg := s.current_path }

/-- The path of a child entry of directory `dir`. -/
def childPath (dir : String) (name : String) : String :=
  dir ++ "/" ++ name

/-- Resolution of an `EnterPath` argument: absolute paths (leading `/`) stand
alone, others are taken relative to the current directory. -/
def resolveTo (cwd : String) (p : String) : String :=
  if charsPrefixOf "/".data p.data then p else cwd ++ "/" ++ p

/-- Modelled from the spec: the resolution rules of
`NavigationController.change_dir`, driven by the path string the `TereTui`
layer passes (`""` is `EnterSelected`, `".."` is `ToParent`, anything else is
`EnterPath`).  `none` means the request is a no-op (a non-directory under the
cursor, or `ToParent` at a filesystem root). -/
def resolveTarget (fs : Fs) (s : TereAppState) (path : String) : Option String :=
  if path = "" then
    match s.ls_output_buf.get? s.absCursor with
    | some e => if e.is_dir then some (childPath s.current_path e.name) else none
    | none => none
  else if path = ".." then fs.parent s.current_path
  else some (resolveTo s.current_path path)

/-- Modelled from the spec: `NavigationController.change_dir` of the missing
`app_state.rs`.  A resolved target is loaded; on success the listing is
replaced, cursor and scroll reset to 0, the search state cleared and the
current path updated; on failure the state is returned untouched together with
the error; an unresolved request is a no-op success. -/
def TereAppState.change_dir (fs : Fs) (s : TereAppState) (path : String) :
    TereAppState × Except NavError Unit :=
  match resolveTarget fs s path with
  | none => (s, Except.ok ())
  | some t =>
    match fs.load t with
    | Except.error e => (s, Except.error e)
    | Except.ok buf =>
      ({ s with current_path := t, ls_output_buf := buf,
                cursor_pos := 0, scroll_pos := 0,
                search_active := false, search_string := "",
                search_matches := [], current_match_pointer := none },
       Except.ok ())

/-- From `src/main.rs` (`info_message`): set the info-line text (the redraw of
the info window is display-only and elided). -/
def TereTui.info_message (s : TereAppState) (msg : String) : TereAppState :=
  { s with info_msg := msg }

/-- From `src/main.rs` (`error_message`): prefix the message with `"error: "`
and show it in the info line. -/
def TereTui.error_message (s : TereAppState) (msg : String) : TereAppState :=
  TereTui.info_message s ("error: " ++ msg)

/-- From `src/main.rs` lines 386-402 (`TereTui::change_dir`): ask the state
object to change directory; on failure display the formatted error in the info
line, on success refresh the header and clear the info line.  Redraws are
display-only and elided. -/
def TereTui.change_dir (fs : Fs) (s : TereAppState) (path : String) : TereAppState :=
  match TereAppState.change_dir fs s path with
  | (s2, Except.error e) => TereTui.error_message s2 (errorDisplay e)
  | (s2, Except.ok _) => TereTui.info_message s2.update_header ""

/-- Input events as decoded by the collaborator input source.  `KeyMod` models
the modifier set carried by a key event; combinations other than a plain
Alt or a plain Control collapse into `otherMod`, matching how `main.rs` only
compares the whole set against `ALT` or `CONTROL`. -/
inductive KeyMod
  | plain
  | alt
  | control
  | otherMod
deriving DecidableEq, Repr

/-- The key codes `main_event_loop` dispatches on. -/
inductive KeyCode
  | right
  | enter
  | left
  | up
  | down
  | pageUp
  | pageDown
  | home
  | endk
  | esc
  | char (c : Char)
  | backspace
  | otherKey
deriving DecidableEq, Repr

/-- A key event: a code with its modifier set. -/
structure KeyEvt where
  code : KeyCode
  mods : KeyMod
deriving DecidableEq, Repr

/-- An input event: a key, a terminal resize, or anything else. -/
inductive Event
  | key (k : KeyEvt)
  | resize (w : Nat) (hgt : Nat)
  | otherEvent (descr : String)
deriving DecidableEq, Repr

/-- The debug rendering of an unrecognized key event shown in the info line. -/
def keyDebugMsg (k : KeyEvt) : String :=
  reprStr k

/-- From `src/main.rs` lines 404-423 (`TereTui::on_search_char`): advance the
search; when exactly one match remains, flash it, discard every input event
that arrived during the pause, and change into the selected directory.  The
pending input queue is threaded explicitly; the branch that calls
`change_dir("")` returns it emptied (the `while poll {...} read_event()` drain
loop). -/
def TereTui.on_search_char (fs : Fs) (s : TereAppState) (c : Char) (pending : List Event) :
    TereAppState × List Event :=
  let s1 := s.advance_search (Char.toString c)
  if s1.search_matches.length = 1 then
    (TereTui.change_dir fs s1 "", [])
  else
    (s1, pending)

/-- From `src/main.rs` lines 425-429 (`TereTui::erase_search_char`). -/
def TereTui.erase_search_char (s : TereAppState) : TereAppState :=
  s.erase_search_char

/-- From `src/main.rs` lines 431-439 (`TereTui::on_resize`): the main window
is the terminal minus one header, one info and one footer row. -/
def TereTui.on_resize (s : TereAppState) (w hgt : Nat) : TereAppState :=
  s.update_main_window_dimensions w (hgt - (1 + 1 + 1))

/-- From `src/main.rs` lines 441-451 (`TereTui::on_arrow_key`): while searching
the arrows jump between matches, otherwise they move the cursor by one with
wrap-around. -/
def TereTui.on_arrow_key (s : TereAppState) (up : Bool) : TereAppState :=
  let dir : Int := if up then -1 else 1
  if s.is_searching then s.move_cursor_to_adjacent_match dir
  else s.move_cursor dir true

/-- From `src/main.rs` lines 453-461 (`TereTui::on_page_up_down`): move by
`viewport_height - 1` without wrapping; while searching the keys do nothing at
all. -/
def TereTui.on_page_up_down (s : TereAppState) (up : Bool) : TereAppState :=
  if !s.is_searching then
    let delta : Int := ((s.main_win_h : Int) - 1) * (if up then -1 else 1)
    s.move_cursor delta false
  else s

/-- From `src/main.rs` lines 463-474 (`TereTui::on_home_end`): jump to index 0
or to the listing length (clamped by `move_cursor_to`); while searching the
keys do nothing at all. -/
def TereTui.on_home_end (s : TereAppState) (home : Bool) : TereAppState :=
  if !s.is_searching then
    let target := if home then 0 else s.ls_output_buf.length
    s.move_cursor_to target
  else s

/-- The outcome of one iteration of `main_event_loop`: either the loop
continues with the updated state (and possibly updated pending-input queue), or
it terminates (`break`). -/
inductive Step
  | cont (s : TereAppState) (pending : List Event)
  | quit (s : TereAppState)
deriving Repr

/-- Is this step a loop termination? -/
def Step.isQuit : Step → Bool
  | Step.quit _ => true
  | _ => false

/-- From `src/main.rs` lines 476-567: one iteration of `main_event_loop`.
`homeDir` is the result of the collaborator `home_dir()`; `pending` is the
queue of further input events, which only the auto-select drain loop inside
`on_search_char` touches.  The guarded Rust match arms (`if k.modifiers == ALT`
etc.) become nested conditionals; a guarded arm whose guard fails falls through
to the generic `Char(c)` search arm exactly as in Rust. -/
def handle_event (fs : Fs) (homeDir : Option String) (s : TereAppState)
    (pending : List Event) (e : Event) : Step :=
  match e with
  | Event.key k =>
    match k.code with
    | KeyCode.right => Step.cont (TereTui.change_dir fs s "") pending
    | KeyCode.enter => Step.cont (TereTui.change_dir fs s "") pending
    | KeyCode.left => Step.cont (TereTui.change_dir fs s "..") pending
    | KeyCode.up =>
        if k.mods = KeyMod.alt then Step.cont (TereTui.change_dir fs s "..") pending
        else Step.cont (TereTui.on_arrow_key s true) pending
    | KeyCode.down =>
        if k.mods = KeyMod.alt then Step.cont (TereTui.change_dir fs s "") pending
        else Step.cont (TereTui.on_arrow_key s false) pending
    | KeyCode.pageUp => Step.cont (TereTui.on_page_up_down s true) pending
    | KeyCode.pageDown => Step.cont (TereTui.on_page_up_down s false) pending
    | KeyCode.home =>
        if k.mods = KeyMod.control then
          match homeDir with
          | some p => Step.cont (TereTui.change_dir fs s p) pending
          | none => Step.cont s pending
        else Step.cont (TereTui.on_home_end s true) pending
    | KeyCode.endk => Step.cont (TereTui.on_home_end s false) pending
    | KeyCode.esc =>
        if s.is_searching then Step.cont s.clear_search pending
        else Step.quit s
    | KeyCode.char c =>
        if c = 'h' ∧ k.mods = KeyMod.alt then
          Step.cont (TereTui.change_dir fs s "..") pending
        else if c = 'j' ∧ k.mods = KeyMod.alt then
          Step.cont (TereTui.on_arrow_key s false) pending
        else if c = 'k' ∧ k.mods = KeyMod.alt then
          Step.cont (TereTui.on_arrow_key s true) pending
        else if c = 'l' ∧ k.mods = KeyMod.alt then
          Step.cont (TereTui.change_dir fs s "") pending
        else if c = 'q' ∧ k.mods = KeyMod.alt then
          Step.quit s
        else if c = 'u' ∧ (k.mods = KeyMod.alt ∨ k.mods = KeyMod.control) then
          Step.cont (TereTui.on_page_up_down s true) pending
        else if c = 'd' ∧ (k.mods = KeyMod.alt ∨ k.mods = KeyMod.control) then
          Step.cont (TereTui.on_page_up_down s false) pending
        else if c = 'g' ∧ k.mods = KeyMod.alt then
          Step.cont (TereTui.on_home_end s true) pending
        else if c = 'G' ∧ k.mods = KeyMod.alt then
          Step.cont (TereTui.on_home_end s false) pending
        else
          let r := TereTui.on_search_char fs s c pending
          Step.cont r.1 r.2
    | KeyCode.backspace => Step.cont (TereTui.erase_search_char s) pending
    | KeyCode.otherKey => Step.cont (TereTui.info_message s (keyDebugMsg k)) pending
  | Event.resize w hgt => Step.cont (TereTui.on_resize s w hgt) pending
  | Event.otherEvent d => Step.cont (TereTui.info_message s d) pending

/-- From `src/main.rs` lines 135-170 (`TereTui::redraw_footer`): the text of
the right-aligned footer counter.  While searching it is
`current_match_rank / match_count / listing_length` (rank `0` when there is no
current match), otherwise `cursor_index+1 / listing_length`. -/
def footer_extra_msg (s : TereAppState) : String :=
  if s.is_searching then
    toString (match s.current_match_pointer with | some i => i + 1 | none => 0)
      ++ " / " ++ toString s.search_matches.length
      ++ " / " ++ toString s.ls_output_buf.length
  else
    toString (s.cursor_pos + s.scroll_pos + 1)
      ++ " / " ++ toString s.ls_output_buf.length

/-- The terminal-affecting actions `main` performs, in order. -/
inductive TermAction
  | enterAltScreen
  | hideCursor
  | enableRawMode
  | leaveAltScreen
  | showCursor
  | disableRawMode
  | printLn (line : String)
deriving DecidableEq, Repr

/-- The environment `main` runs against: whether each fallible terminal call
succeeds, the combined result of `TereTui::init` plus `main_event_loop`, and
the working directory printed on a normal exit. -/
structure MainEnv where
  enterAltOk : Bool
  rawModeOk : Bool
  sessionRes : Except String Unit
  leaveAltOk : Bool
  disableRawOk : Bool
  cwd : String

/-- From `src/main.rs` lines 570-617 (`fn main`): the sequence of terminal
actions performed and the process exit status.  A failing `?` makes `main`
return the error, which the runtime turns into exit status 1; `res.unwrap()`
on an init/event-loop error panics, exit status 101; a normal exit prints the
current directory on standard output and exits 0. -/
def main (env : MainEnv) : List TermAction × Nat :=
  if !env.enterAltOk then ([], 1)
  else
    let tr0 := [TermAction.enterAltScreen, TermAction.hideCursor]
    if !env.rawModeOk then (tr0, 1)
    else
      let tr1 := tr0 ++ [TermAction.enableRawMode]
      if !env.leaveAltOk then (tr1, 1)
      else
        let tr2 := tr1 ++ [TermAction.leaveAltScreen, TermAction.showCursor]
        if !env.disableRawOk then (tr2, 1)
        else
          let tr3 := tr2 ++ [TermAction.disableRawMode]
          match env.sessionRes with
          | Except.error _ => (tr3, 101)
          | Except.ok _ => (tr3 ++ [TermAction.printLn env.cwd], 0)

/-! ## Viewport invariants -/

/-- The `ViewportState` invariants of the specification: a non-negative scroll
offset, the cursor inside the visible window, the cursor inside the listing
whenever the listing is non-empty, and a cursor pinned to 0 on an empty
listing. -/
def viewport_inv (s : TereAppState) : Prop :=
  0 ≤ s.scroll_pos
  ∧ s.scroll_pos ≤ s.absCursor
  ∧ s.absCursor < s.scroll_pos + s.main_win_h
  ∧ (s.ls_output_buf.length ≠ 0 → s.absCursor < s.ls_output_buf.length)
  ∧ (s.ls_output_buf.length = 0 → s.absCursor = 0)

instance (s : TereAppState) : Decidable (viewport_inv s) := by
  unfold viewport_inv
  infer_instance

theorem set_abs_cursor_absCursor (s : TereAppState) (n : Nat) (hh : 0 < s.main_win_h) :
    (s.set_abs_cursor n).absCursor = n := by
  unfold TereAppState.set_abs_cursor TereAppState.absCursor
  dsimp only
  split_ifs <;> omega

theorem set_abs_cursor_ls_output_buf (s : TereAppState) (n : Nat) :
    (s.set_abs_cursor n).ls_output_buf = s.ls_output_buf := rfl

theorem set_abs_cursor_main_win_h (s : TereAppState) (n : Nat) :
    (s.set_abs_cursor n).main_win_h = s.main_win_h := rfl

theorem set_abs_cursor_viewport_inv (s : TereAppState) (n : Nat)
    (hh : 0 < s.main_win_h) (hn : n < s.ls_output_buf.length) :
    viewport_inv (s.set_abs_cursor n) := by
  have habs := set_abs_cursor_absCursor s n hh
  unfold viewport_inv
  rw [habs, set_abs_cursor_ls_output_buf, set_abs_cursor_main_win_h]
  unfold TereAppState.set_abs_cursor
  dsimp only
  split_ifs <;> omega

theorem viewport_inv_main_win_h_pos (s : TereAppState) (h : viewport_inv s) :
    0 < s.main_win_h := by
  rcases h with ⟨-, h1, h2, -, -⟩
  omega

theorem move_cursor_viewport_inv (s : TereAppState) (d : Int) (w : Bool)
    (h : viewport_inv s) : viewport_inv (s.move_cursor d w) := by
  have hh : 0 < s.main_win_h := viewport_inv_main_win_h_pos s h
  unfold TereAppState.move_cursor
  dsimp only
  split_ifs with hlen hw
  · exact h
  · have hpos : 0 < s.ls_output_buf.length := Nat.pos_of_ne_zero hlen
    apply set_abs_cursor_viewport_inv s _ hh
    have hnz : (s.ls_output_buf.length : Int) ≠ 0 := by exact_mod_cast hlen
    have h0 : 0 ≤ ((s.absCursor : Int) + d) % (s.ls_output_buf.length : Int) :=
      Int.emod_nonneg _ hnz
    have h1 : ((s.absCursor : Int) + d) % (s.ls_output_buf.length : Int)
        < (s.ls_output_buf.length : Int) :=
      Int.emod_lt_of_pos _ (by exact_mod_cast hpos)
    omega
  · have hpos : 0 < s.ls_output_buf.length := Nat.pos_of_ne_zero hlen
    apply set_abs_cursor_viewport_inv s _ hh
    omega

/-- One `move_cursor` call after another, front to back. -/
def run_moves (s : TereAppState) : List (Int × Bool) → TereAppState
  | [] => s
  | (d, w) :: rest => run_moves (s.move_cursor d w) rest

/-- C3: for every listing and every finite sequence of `move_cursor` calls
(any deltas, wrapping or not), the viewport invariants hold after every call:
`0 ≤ scroll_offset ≤ absolute_cursor < scroll_offset + viewport_height`, the
cursor stays inside a non-empty listing, and stays at 0 on an empty one. -/
theorem move_cursor_sequence_viewport_inv (s : TereAppState) (h : viewport_inv s)
    (ms : List (Int × Bool)) : viewport_inv (run_moves s ms) := by
  induction ms generalizing s with
  | nil => exact h
  | cons dw rest ih =>
    obtain ⟨d, w⟩ := dw
    exact ih (s.move_cursor d w) (move_cursor_viewport_inv s d w h)

/-- C3 witness: a concrete three-entry listing with a height-2 viewport keeps
the viewport invariants through a mixed sequence of cursor moves. -/
theorem move_cursor_sequence_viewport_inv_witness :
    viewport_inv (run_moves
      { current_path := "/w", ls_output_buf := [⟨"a", true⟩, ⟨"b", false⟩, ⟨"c", true⟩],
        cursor_pos := 0, scroll_pos := 0, main_win_w := 80, main_win_h := 2,
        header_msg := "", info_msg := "", search_active := false, search_string := "",
        search_matches := [], current_match_pointer := none }
      [(1, false), (1, false), (5, true), (-7, true), (100, false)]) :=
  move_cursor_sequence_viewport_inv _ (by decide) _

/-- C5: on a non-empty listing, `move_cursor(+1, wrap)` from the last index
lands on index 0 and `move_cursor(-1, wrap)` from index 0 lands on the last
index; without wrapping the new absolute cursor is the old one plus the delta,
clamped to `[0, len-1]`, for every delta. -/
theorem move_cursor_wrap_clamp (s : TereAppState) (hinv : viewport_inv s)
    (hlen : s.ls_output_buf.length ≠ 0) :
    (s.absCursor = s.ls_output_buf.length - 1 →
       (s.move_cursor 1 true).absCursor = 0)
    ∧ (s.absCursor = 0 →
       (s.move_cursor (-1) true).absCursor = s.ls_output_buf.length - 1)
    ∧ ∀ d : Int, ((s.move_cursor d false).absCursor : Int)
        = max 0 (min ((s.ls_output_buf.length : Int) - 1) ((s.absCursor : Int) + d)) := by
  have hh : 0 < s.main_win_h := viewport_inv_main_win_h_pos s hinv
  have hpos : 0 < s.ls_output_buf.length := Nat.pos_of_ne_zero hlen
  have hposZ : 0 < (s.ls_output_buf.length : Int) := by exact_mod_cast hpos
  refine ⟨?_, ?_, ?_⟩
  · intro hlast
    unfold TereAppState.move_cursor
    dsimp only
    rw [if_neg hlen, if_pos rfl, set_abs_cursor_absCursor _ _ hh]
    have htgt : (s.absCursor : Int) + 1 = (s.ls_output_buf.length : Int) := by
      rw [hlast]; omega
    rw [htgt, Int.emod_self]
    simp
  · intro hzero
    unfold TereAppState.move_cursor
    dsimp only
    rw [if_neg hlen, if_pos rfl, set_abs_cursor_absCursor _ _ hh]
    have htgt : (s.absCursor : Int) + (-1) = -1 := by rw [hzero]; simp
    rw [htgt]
    have hmod : (-1 : Int) % (s.ls_output_buf.length : Int)
        = (s.ls_output_buf.length : Int) - 1 := by
      have h1 : ((-1 : Int) + (s.ls_output_buf.length : Int) * 1)
            % (s.ls_output_buf.length : Int) = (-1 : Int) % (s.ls_output_buf.length : Int) :=
        Int.add_mul_emod_self_left (-1) (s.ls_output_buf.length : Int) 1
      have h2 : ((s.ls_output_buf.length : Int) - 1) % (s.ls_output_buf.length : Int)
          = (s.ls_output_buf.length : Int) - 1 :=
        Int.emod_eq_of_lt (by omega) (by omega)
      calc (-1 : Int) % (s.ls_output_buf.length : Int)
          = ((-1 : Int) + (s.ls_output_buf.length : Int) * 1)
              % (s.ls_output_buf.length : Int) := h1.symm
        _ = ((s.ls_output_buf.length : Int) - 1) % (s.ls_output_buf.length : Int) := by
              congr 1
              ring
        _ = (s.ls_output_buf.length : Int) - 1 := h2
    rw [hmod]
    omega
  · intro d
    unfold TereAppState.move_cursor
    dsimp only
    rw [if_neg hlen, if_neg (by simp), set_abs_cursor_absCursor _ _ hh]
    have hge : (0 : Int) ≤ max 0 (min ((s.ls_output_buf.length : Int) - 1)
        ((s.absCursor : Int) + d)) := le_max_left _ _
    omega

/-- C5 witness: concrete wrap-around from both ends and clamping of an
overshooting delta on a three-entry listing. -/
theorem move_cursor_wrap_clamp_witness :
    (TereAppState.move_cursor
      { current_path := "/w", ls_output_buf := [⟨"a", true⟩, ⟨"b", false⟩, ⟨"c", true⟩],
        cursor_pos := 0, scroll_pos := 2, main_win_w := 80, main_win_h := 2,
        header_msg := "", info_msg := "", search_active := false, search_string := "",
        search_matches := [], current_match_pointer := none } 1 true).absCursor = 0
    ∧ (TereAppState.move_cursor
      { current_path := "/w", ls_output_buf := [⟨"a", true⟩, ⟨"b", false⟩, ⟨"c", true⟩],
        cursor_pos := 0, scroll_pos := 0, main_win_w := 80, main_win_h := 2,
        header_msg := "", info_msg := "", search_active := false, search_string := "",
        search_matches := [], current_match_pointer := none } (-1) true).absCursor = 2
    ∧ ((TereAppState.move_cursor
      { current_path := "/w", ls_output_buf := [⟨"a", true⟩, ⟨"b", false⟩, ⟨"c", true⟩],
        cursor_pos := 0, scroll_pos := 0, main_win_w := 80, main_win_h := 2,
        header_msg := "", info_msg := "", search_active := false, search_string := "",
        search_matches := [], current_match_pointer := none } 100 false).absCursor : Int)
      = max 0 (min ((3 : Int) - 1) ((0 : Int) + 100)) :=
  ⟨(move_cursor_wrap_clamp _ (by decide) (by decide)).1 (by decide),
   (move_cursor_wrap_clamp _ (by decide) (by decide)).2.1 (by decide),
   (move_cursor_wrap_clamp _ (by decide) (by decide)).2.2 100⟩

/-! ## The incremental search engine -/

theorem mem_computeMatches (buf : List CustomDirEntry) (q : String) (i : Nat) :
    i ∈ computeMatches buf q ↔
      ∃ e, buf.get? i = some e ∧ nameContains e.name q = true := by
  unfold computeMatches
  rw [List.mem_filter, List.mem_range]
  constructor
  · rintro ⟨hi, hp⟩
    cases hbe : buf.get? i with
    | none => rw [hbe] at hp; exact absurd hp (by simp)
    | some e =>
      refine ⟨e, rfl, ?_⟩
      rw [hbe] at hp
      exact hp
  · rintro ⟨e, hbe, hm⟩
    have hi : i < buf.length := by
      by_contra hge
      rw [List.get?_eq_none.mpr (by omega)] at hbe
      exact absurd hbe (by simp)
    refine ⟨hi, ?_⟩
    rw [hbe]
    exact hm

theorem computeMatches_sorted (buf : List CustomDirEntry) (q : String) :
    (computeMatches buf q).Sorted (· < ·) :=
  (List.pairwise_lt_range _).filter _

/-- One operation of the incremental search engine, as issued by the event
loop: a character append or a backspace. -/
inductive SearchOp
  | adv (q : String)
  | erase
deriving DecidableEq, Repr

/-- Apply one search operation to the state. -/
def applySearchOp (s : TereAppState) : SearchOp → TereAppState
  | SearchOp.adv q => s.advance_search q
  | SearchOp.erase => s.erase_search_char

/-- Apply a sequence of search operations front to back. -/
def run_search_ops (s : TereAppState) : List SearchOp → TereAppState
  | [] => s
  | op :: rest => run_search_ops (applySearchOp s op) rest

theorem move_cursor_to_search_fields (s : TereAppState) (t : Nat) :
    (s.move_cursor_to t).search_matches = s.search_matches
    ∧ (s.move_cursor_to t).ls_output_buf = s.ls_output_buf
    ∧ (s.move_cursor_to t).search_string = s.search_string := by
  unfold TereAppState.move_cursor_to
  dsimp only
  split_ifs <;> exact ⟨rfl, rfl, rfl⟩

theorem applySearchOp_matches (s : TereAppState) (op : SearchOp) :
    (applySearchOp s op).search_matches =
      computeMatches (applySearchOp s op).ls_output_buf (applySearchOp s op).search_string := by
  cases op with
  | adv q =>
    simp only [applySearchOp]
    unfold TereAppState.advance_search TereAppState.update_search_matches
    dsimp only
    split
    · rename_i m hm
      obtain ⟨h1, h2, h3⟩ := move_cursor_to_search_fields _ m
      rw [h1, h2, h3]
    · rfl
  | erase =>
    simp only [applySearchOp]
    unfold TereAppState.erase_search_char TereAppState.update_search_matches
    dsimp only

theorem run_search_ops_matches (s : TereAppState) (ops : List SearchOp) (hne : ops ≠ []) :
    (run_search_ops s ops).search_matches =
      computeMatches (run_search_ops s ops).ls_output_buf
        (run_search_ops s ops).search_string := by
  induction ops generalizing s with
  | nil => exact absurd rfl hne
  | cons op rest ih =>
    cases rest with
    | nil => exact applySearchOp_matches s op
    | cons r rs =>
      show (run_search_ops (applySearchOp s op) (r :: rs)).search_matches = _
      exact ih (applySearchOp s op) (by simp)

/-- C4: after any non-empty sequence of `advance`/`erase_last_char` calls, the
match list is exactly the set of listing indices whose entry name contains the
current query as a contiguous substring, in ascending index order. -/
theorem search_matches_exact (s : TereAppState) (ops : List SearchOp) (hne : ops ≠ []) :
    (∀ i, i ∈ (run_search_ops s ops).search_matches ↔
       ∃ e, (run_search_ops s ops).ls_output_buf.get? i = some e
            ∧ nameContains e.name (run_search_ops s ops).search_string = true)
    ∧ (run_search_ops s ops).search_matches.Sorted (· < ·) := by
  have hm := run_search_ops_matches s ops hne
  constructor
  · intro i
    rw [hm]
    exact mem_computeMatches _ _ i
  · rw [hm]
    exact computeMatches_sorted _ _

/-- C4 witness: typing `"an"` then erasing one character over the listing
`apple, Banana, cherry` leaves exactly the indices whose name contains `"a"`,
sorted ascending. -/
theorem search_matches_exact_witness :
    (0 ∈ (run_search_ops
        { current_path := "/w",
          ls_output_buf := [⟨"apple", false⟩, ⟨"Banana", false⟩, ⟨"cherry", false⟩],
          cursor_pos := 0, scroll_pos := 0, main_win_w := 80, main_win_h := 5,
          header_msg := "", info_msg := "", search_active := false, search_string := "",
          search_matches := [], current_match_pointer := none }
        [SearchOp.adv "a", SearchOp.adv "n", SearchOp.erase]).search_matches ↔
      ∃ e, (run_search_ops
        { current_path := "/w",
          ls_output_buf := [⟨"apple", false⟩, ⟨"Banana", false⟩, ⟨"cherry", false⟩],
          cursor_pos := 0, scroll_pos := 0, main_win_w := 80, main_win_h := 5,
          header_msg := "", info_msg := "", search_active := false, search_string := "",
          search_matches := [], current_match_pointer := none }
        [SearchOp.adv "a", SearchOp.adv "n", SearchOp.erase]).ls_output_buf.get? 0 = some e
        ∧ nameContains e.name (run_search_ops
        { current_path := "/w",
          ls_output_buf := [⟨"apple", false⟩, ⟨"Banana", false⟩, ⟨"cherry", false⟩],
          cursor_pos := 0, scroll_pos := 0, main_win_w := 80, main_win_h := 5,
          header_msg := "", info_msg := "", search_active := false, search_string := "",
          search_matches := [], current_match_pointer := none }
        [SearchOp.adv "a", SearchOp.adv "n", SearchOp.erase]).search_string = true)
    ∧ (run_search_ops
        { current_path := "/w",
          ls_output_buf := [⟨"apple", false⟩, ⟨"Banana", false⟩, ⟨"cherry", false⟩],
          cursor_pos := 0, scroll_pos := 0, main_win_w := 80, main_win_h := 5,
          header_msg := "", info_msg := "", search_active := false, search_string := "",
          search_matches := [], current_match_pointer := none }
        [SearchOp.adv "a", SearchOp.adv "n", SearchOp.erase]).search_matches.Sorted (· < ·) :=
  ⟨(search_matches_exact _ _ (by decide)).1 0, (search_matches_exact _ _ (by decide)).2⟩

/-! ## Directory changes and the event loop -/

theorem handle_event_quit_cases (fs : Fs) (homeDir : Option String) (s : TereAppState)
    (pending : List Event) (e2 : Event)
    (hq : Step.isQuit (handle_event fs homeDir s pending e2) = true) :
    (∃ m, e2 = Event.key ⟨KeyCode.esc, m⟩ ∧ s.is_searching = false)
    ∨ e2 = Event.key ⟨KeyCode.char 'q', KeyMod.alt⟩ := by
  cases e2 with
  | key k =>
    obtain ⟨code, mods⟩ := k
    cases code <;> simp only [handle_event] at hq
    case right => exact absurd hq (by simp [Step.isQuit])
    case enter => exact absurd hq (by simp [Step.isQuit])
    case left => exact absurd hq (by simp [Step.isQuit])
    case up => split_ifs at hq <;> exact absurd hq (by simp [Step.isQuit])
    case down => split_ifs at hq <;> exact absurd hq (by simp [Step.isQuit])
    case pageUp => exact absurd hq (by simp [Step.isQuit])
    case pageDown => exact absurd hq (by simp [Step.isQuit])
    case home =>
      split_ifs at hq
      · cases homeDir <;> exact absurd hq (by simp [Step.isQuit])
      · exact absurd hq (by simp [Step.isQuit])
    case endk => exact absurd hq (by simp [Step.isQuit])
    case esc =>
      split_ifs at hq with hsearch
      · exact absurd hq (by simp [Step.isQuit])
      · exact Or.inl ⟨mods, rfl, by simpa using hsearch⟩
    case char c =>
      split_ifs at hq with h1 h2 h3 h4 h5 h6 h7 h8 h9
      · exact absurd hq (by simp [Step.isQuit])
      · exact absurd hq (by simp [Step.isQuit])
      · exact absurd hq (by simp [Step.isQuit])
      · exact absurd hq (by simp [Step.isQuit])
      · exact Or.inr (by rw [h5.1, h5.2])
      · exact absurd hq (by simp [Step.isQuit])
      · exact absurd hq (by simp [Step.isQuit])
      · exact absurd hq (by simp [Step.isQuit])
      · exact absurd hq (by simp [Step.isQuit])
      · exact absurd hq (by simp [Step.isQuit])
    case backspace => exact absurd hq (by simp [Step.isQuit])
    case otherKey => exact absurd hq (by simp [Step.isQuit])
  | resize w hgt => exact absurd hq (by simp [handle_event, Step.isQuit])
  | otherEvent d => exact absurd hq (by simp [handle_event, Step.isQuit])

theorem change_dir_eq_noop (fs : Fs) (s : TereAppState) (path : String)
    (h : resolveTarget fs s path = none) :
    TereAppState.change_dir fs s path = (s, Except.ok ()) := by
  unfold TereAppState.change_dir
  rw [h]

theorem change_dir_eq_error (fs : Fs) (s : TereAppState) (path t : String) (e : NavError)
    (h : resolveTarget fs s path = some t) (hl : fs.load t = Except.error e) :
    TereAppState.change_dir fs s path = (s, Except.error e) := by
  unfold TereAppState.change_dir
  rw [h]
  dsimp only
  rw [hl]

theorem change_dir_eq_ok (fs : Fs) (s : TereAppState) (path t : String)
    (buf : List CustomDirEntry)
    (h : resolveTarget fs s path = some t) (hl : fs.load t = Except.ok buf) :
    TereAppState.change_dir fs s path =
      ({ s with current_path := t, ls_output_buf := buf, cursor_pos := 0, scroll_pos := 0,
                search_active := false, search_string := "", search_matches := [],
                current_match_pointer := none }, Except.ok ()) := by
  unfold TereAppState.change_dir
  rw [h]
  dsimp only
  rw [hl]

/-- C1: when `change_dir` fails, the state object is returned untouched
(listing, cursor, scroll and search state included), the TUI layer only writes
an `error: ...` message into the info line, and no input event that reaches
`change_dir` can terminate the event loop (only `Esc` outside a search and
`Alt-q` ever do). -/
theorem change_dir_failure_is_safe (fs : Fs) (s : TereAppState) (path : String) (e : NavError)
    (hfail : (TereAppState.change_dir fs s path).2 = Except.error e) :
    (TereAppState.change_dir fs s path).1 = s
    ∧ TereTui.change_dir fs s path = { s with info_msg := "error: " ++ errorDisplay e }
    ∧ ∀ (homeDir : Option String) (pending : List Event) (e2 : Event),
        Step.isQuit (handle_event fs homeDir s pending e2) = true →
          (∃ m, e2 = Event.key ⟨KeyCode.esc, m⟩ ∧ s.is_searching = false)
          ∨ e2 = Event.key ⟨KeyCode.char 'q', KeyMod.alt⟩ := by
  have hcore : TereAppState.change_dir fs s path = (s, Except.error e) := by
    cases hrt : resolveTarget fs s path with
    | none =>
      rw [change_dir_eq_noop fs s path hrt] at hfail
      exact absurd hfail (by simp)
    | some t =>
      cases hld : fs.load t with
      | error e2 =>
        have heq := change_dir_eq_error fs s path t e2 hrt hld
        rw [heq] at hfail
        dsimp only at hfail
        have he : e2 = e := by injection hfail
        rw [← he]
        exact heq
      | ok buf =>
        rw [change_dir_eq_ok fs s path t buf hrt hld] at hfail
        exact absurd hfail (by simp)
  refine ⟨by rw [hcore], ?_, ?_⟩
  · unfold TereTui.change_dir
    rw [hcore]
    rfl
  · intro homeDir pending e2 hq
    exact handle_event_quit_cases fs homeDir s pending e2 hq

/-- A filesystem whose every load is denied; the root's parent is `"/"`. -/
def fsDenied : Fs :=
  { load := fun _ => Except.error NavError.permissionDenied, parent := fun _ => some "/" }

/-- A filesystem at whose root every path has no parent and no load ever
succeeds. -/
def fsRootOnly : Fs :=
  { load := fun _ => Except.error NavError.notFound, parent := fun _ => none }

/-- A filesystem where every directory loads as the single file `x`. -/
def fsTmp : Fs :=
  { load := fun _ => Except.ok [⟨"x", false⟩], parent := fun _ => some "/" }

/-- A concrete browsing state at `/` with a two-entry listing, cursor on the
second entry, and an active search for `"beta"`. -/
def sBeta : TereAppState :=
  { current_path := "/", ls_output_buf := [⟨"alpha", true⟩, ⟨"beta", true⟩],
    cursor_pos := 1, scroll_pos := 0, main_win_w := 80, main_win_h := 5,
    header_msg := "/", info_msg := "", search_active := true, search_string := "beta",
    search_matches := [1], current_match_pointer := some 0 }

/-- C1 witness: a permission-denied load of `/etc` leaves the concrete state
`sBeta` untouched and only sets the info line. -/
theorem change_dir_failure_is_safe_witness :
    (TereAppState.change_dir fsDenied sBeta "/etc").1 = sBeta
    ∧ TereTui.change_dir fsDenied sBeta "/etc" =
        { sBeta with info_msg := "error: " ++ errorDisplay NavError.permissionDenied } :=
  ⟨(change_dir_failure_is_safe fsDenied sBeta "/etc" NavError.permissionDenied rfl).1,
   (change_dir_failure_is_safe fsDenied sBeta "/etc" NavError.permissionDenied rfl).2.1⟩

/-- C2 counterexample: at a filesystem root, `ToParent` (`change_dir ".."`)
returns success yet leaves the cursor at index 1, not 0, and the search still
active: a successful `change_dir` does not always reset cursor, scroll and
search. -/
theorem change_dir_noop_success_cex :
    (TereAppState.change_dir fsRootOnly sBeta "..").2 = Except.ok ()
    ∧ (TereAppState.change_dir fsRootOnly sBeta "..").1.cursor_pos = 1
    ∧ (TereAppState.change_dir fsRootOnly sBeta "..").1.search_active = true :=
  ⟨rfl, rfl, rfl⟩

/-- C2 (amended): whenever `change_dir` resolves a target and the directory
load succeeds — i.e. whenever a directory change actually happens — the call
succeeds with cursor 0, scroll 0, search inactive with empty query and empty
match list, and the listing and current path of the new directory; the no-op
successes (`ToParent` at a root, `EnterSelected` on a non-directory) leave the
state unchanged instead. -/
theorem change_dir_load_success_resets (fs : Fs) (s : TereAppState) (path t : String)
    (buf : List CustomDirEntry)
    (ht : resolveTarget fs s path = some t)
    (hload : fs.load t = Except.ok buf) :
    (TereAppState.change_dir fs s path).2 = Except.ok ()
    ∧ (TereAppState.change_dir fs s path).1 =
      { s with current_path := t, ls_output_buf := buf, cursor_pos := 0, scroll_pos := 0,
               search_active := false, search_string := "", search_matches := [],
               current_match_pointer := none }
    ∧ (resolveTarget fs s path = none →
        TereAppState.change_dir fs s path = (s, Except.ok ())) := by
  rw [change_dir_eq_ok fs s path t buf ht hload]
  exact ⟨rfl, rfl, fun hanone => absurd (ht.symm.trans hanone) (by simp)⟩

/-- C2 witness: entering `/tmp` with a filesystem that loads one entry resets
the cursor, scroll and search state and installs the new listing and path. -/
theorem change_dir_load_success_resets_witness :
    (TereAppState.change_dir fsTmp sBeta "/tmp").2 = Except.ok ()
    ∧ (TereAppState.change_dir fsTmp sBeta "/tmp").1 =
      { sBeta with current_path := "/tmp", ls_output_buf := [⟨"x", false⟩],
                   cursor_pos := 0, scroll_pos := 0, search_active := false,
                   search_string := "", search_matches := [],
                   current_match_pointer := none } :=
  ⟨(change_dir_load_success_resets fsTmp sBeta "/tmp" "/tmp" [⟨"x", false⟩] (by rfl) rfl).1,
   (change_dir_load_success_resets fsTmp sBeta "/tmp" "/tmp" [⟨"x", false⟩] (by rfl) rfl).2.1⟩

/-! ## Auto-select on a single search match -/

theorem advance_search_single_fields (s : TereAppState) (q : String) (m : Nat)
    (hone : computeMatches s.ls_output_buf (s.search_string ++ q) = [m])
    (hh : 0 < s.main_win_h) :
    (s.advance_search q).search_matches = [m]
    ∧ (s.advance_search q).ls_output_buf = s.ls_output_buf
    ∧ (s.advance_search q).current_path = s.current_path
    ∧ (s.advance_search q).main_win_h = s.main_win_h
    ∧ (s.advance_search q).absCursor = m := by
  have hmlt : m < s.ls_output_buf.length := by
    have hmem : m ∈ computeMatches s.ls_output_buf (s.search_string ++ q) := by
      rw [hone]; exact List.mem_singleton_self m
    obtain ⟨e, he, -⟩ := (mem_computeMatches _ _ m).mp hmem
    by_contra hge
    rw [List.get?_eq_none.mpr (by omega)] at he
    exact absurd he (by simp)
  unfold TereAppState.advance_search TereAppState.update_search_matches
  dsimp only
  rw [hone]
  dsimp only
  unfold TereAppState.move_cursor_to
  dsimp only
  rw [if_neg (by omega)]
  have hmin : min m (s.ls_output_buf.length - 1) = m := by omega
  rw [hmin]
  refine ⟨rfl, rfl, rfl, rfl, ?_⟩
  exact set_abs_cursor_absCursor _ m hh

/-- C6: when advancing the search by one character leaves exactly one match,
the cursor is moved onto that match, every input event that arrived during the
auto-select pause is discarded, and `EnterSelected` (`change_dir ""`) runs:
the program ends up inside that directory with a fresh listing. -/
theorem single_match_auto_select (fs : Fs) (s : TereAppState) (c : Char)
    (pending : List Event) (m : Nat) (en : CustomDirEntry) (buf2 : List CustomDirEntry)
    (hh : 0 < s.main_win_h)
    (hone : computeMatches s.ls_output_buf (s.search_string ++ Char.toString c) = [m])
    (hent : s.ls_output_buf.get? m = some en)
    (hdir : en.is_dir = true)
    (hload : fs.load (childPath s.current_path en.name) = Except.ok buf2) :
    (s.advance_search (Char.toString c)).absCursor = m
    ∧ (TereTui.on_search_char fs s c pending).2 = []
    ∧ (TereTui.on_search_char fs s c pending).1.current_path = childPath s.current_path en.name
    ∧ (TereTui.on_search_char fs s c pending).1.ls_output_buf = buf2
    ∧ (TereTui.on_search_char fs s c pending).1.cursor_pos = 0
    ∧ (TereTui.on_search_char fs s c pending).1.scroll_pos = 0 := by
  obtain ⟨hm, hbuf, hpath, hwin, habs⟩ :=
    advance_search_single_fields s (Char.toString c) m hone hh
  have hrt : resolveTarget fs (s.advance_search (Char.toString c)) "" =
      some (childPath s.current_path en.name) := by
    unfold resolveTarget
    rw [if_pos rfl, habs, hbuf, hent]
    dsimp only
    rw [if_pos hdir, hpath]
  have hcd := change_dir_eq_ok fs (s.advance_search (Char.toString c)) ""
    (childPath s.current_path en.name) buf2 hrt hload
  have hui : TereTui.change_dir fs (s.advance_search (Char.toString c)) "" =
      { s.advance_search (Char.toString c) with
          current_path := childPath s.current_path en.name, ls_output_buf := buf2,
          cursor_pos := 0, scroll_pos := 0, search_active := false, search_string := "",
          search_matches := [], current_match_pointer := none,
          header_msg := childPath s.current_path en.name, info_msg := "" } := by
    unfold TereTui.change_dir
    rw [hcd]
    rfl
  have hos : TereTui.on_search_char fs s c pending =
      (TereTui.change_dir fs (s.advance_search (Char.toString c)) "", []) := by
    unfold TereTui.on_search_char
    dsimp only
    rw [hm]
    rfl
  rw [hos, hui]
  exact ⟨habs, rfl, rfl, rfl, rfl, rfl⟩

/-- A concrete state about to auto-select: typing `p` over
`apple, banana` matches only `apple`. -/
def sAuto : TereAppState :=
  { current_path := "/d", ls_output_buf := [⟨"apple", true⟩, ⟨"banana", false⟩],
    cursor_pos := 1, scroll_pos := 0, main_win_w := 80, main_win_h := 5,
    header_msg := "/d", info_msg := "", search_active := false, search_string := "",
    search_matches := [], current_match_pointer := none }

/-- A filesystem whose every directory loads as the single entry `inner`. -/
def fsAuto : Fs :=
  { load := fun _ => Except.ok [⟨"inner", true⟩], parent := fun _ => some "/" }

/-- C6 witness: typing `p` in `sAuto` auto-selects `apple`: the cursor jumps to
index 0, the two queued events are discarded, and the state ends inside
`/d/apple` with the fresh listing. -/
theorem single_match_auto_select_witness :
    (sAuto.advance_search (Char.toString 'p')).absCursor = 0
    ∧ (TereTui.on_search_char fsAuto sAuto 'p'
        [Event.key ⟨KeyCode.down, KeyMod.plain⟩, Event.key ⟨KeyCode.esc, KeyMod.plain⟩]).2 = []
    ∧ (TereTui.on_search_char fsAuto sAuto 'p'
        [Event.key ⟨KeyCode.down, KeyMod.plain⟩,
         Event.key ⟨KeyCode.esc, KeyMod.plain⟩]).1.current_path = childPath "/d" "apple"
    ∧ (TereTui.on_search_char fsAuto sAuto 'p'
        [Event.key ⟨KeyCode.down, KeyMod.plain⟩,
         Event.key ⟨KeyCode.esc, KeyMod.plain⟩]).1.ls_output_buf = [⟨"inner", true⟩] :=
  ⟨(single_match_auto_select fsAuto sAuto 'p'
      [Event.key ⟨KeyCode.down, KeyMod.plain⟩, Event.key ⟨KeyCode.esc, KeyMod.plain⟩]
      0 ⟨"apple", true⟩ [⟨"inner", true⟩] (by decide) (by rfl) rfl rfl rfl).1,
   (single_match_auto_select fsAuto sAuto 'p'
      [Event.key ⟨KeyCode.down, KeyMod.plain⟩, Event.key ⟨KeyCode.esc, KeyMod.plain⟩]
      0 ⟨"apple", true⟩ [⟨"inner", true⟩] (by decide) (by rfl) rfl rfl rfl).2.1,
   (single_match_auto_select fsAuto sAuto 'p'
      [Event.key ⟨KeyCode.down, KeyMod.plain⟩, Event.key ⟨KeyCode.esc, KeyMod.plain⟩]
      0 ⟨"apple", true⟩ [⟨"inner", true⟩] (by decide) (by rfl) rfl rfl rfl).2.2.1,
   (single_match_auto_select fsAuto sAuto 'p'
      [Event.key ⟨KeyCode.down, KeyMod.plain⟩, Event.key ⟨KeyCode.esc, KeyMod.plain⟩]
      0 ⟨"apple", true⟩ [⟨"inner", true⟩] (by decide) (by rfl) rfl rfl rfl).2.2.2.1⟩

/-! ## Escape, footer, page keys, process exit -/

/-- A concrete browsing state (no search active). -/
def sBrowse : TereAppState :=
  { current_path := "/", ls_output_buf := [⟨"alpha", true⟩, ⟨"beta", true⟩],
    cursor_pos := 0, scroll_pos := 0, main_win_w := 80, main_win_h := 5,
    header_msg := "/", info_msg := "", search_active := false, search_string := "",
    search_matches := [], current_match_pointer := none }

/-- C7: pressing escape while a search is active clears the search (active
flag off, empty query, empty matches) and the loop continues; pressing escape
with no search active terminates the event loop. -/
theorem esc_clears_search_or_quits (fs : Fs) (homeDir : Option String) (s : TereAppState)
    (pending : List Event) (m : KeyMod) :
    (s.is_searching = true →
       handle_event fs homeDir s pending (Event.key ⟨KeyCode.esc, m⟩)
           = Step.cont s.clear_search pending
       ∧ s.clear_search.search_active = false
       ∧ s.clear_search.search_string = ""
       ∧ s.clear_search.search_matches = [])
    ∧ (s.is_searching = false →
       handle_event fs homeDir s pending (Event.key ⟨KeyCode.esc, m⟩) = Step.quit s) := by
  constructor
  · intro hs
    exact ⟨by simp [handle_event, hs], rfl, rfl, rfl⟩
  · intro hs
    simp [handle_event, hs]

/-- C7 witness: escape in the searching state `sBeta` clears the search and
continues; escape in the browsing state `sBrowse` terminates the loop. -/
theorem esc_clears_search_or_quits_witness :
    handle_event fsRootOnly none sBeta [] (Event.key ⟨KeyCode.esc, KeyMod.plain⟩)
      = Step.cont sBeta.clear_search []
    ∧ handle_event fsRootOnly none sBrowse [] (Event.key ⟨KeyCode.esc, KeyMod.plain⟩)
      = Step.quit sBrowse :=
  ⟨((esc_clears_search_or_quits fsRootOnly none sBeta [] KeyMod.plain).1 rfl).1,
   (esc_clears_search_or_quits fsRootOnly none sBrowse [] KeyMod.plain).2 rfl⟩

/-- C8: the footer counter reads `absolute_cursor+1 / len` outside a search
and `match_rank / match_count / len` while searching, where the rank is the
1-based position of the current match. -/
theorem footer_format (s t : TereAppState) (k : Nat)
    (hs : s.is_searching = false) (ht : t.is_searching = true)
    (hk : t.current_match_pointer = some k) :
    footer_extra_msg s =
      toString (s.absCursor + 1) ++ " / " ++ toString s.ls_output_buf.length
    ∧ footer_extra_msg t =
      toString (k + 1) ++ " / " ++ toString t.search_matches.length
        ++ " / " ++ toString t.ls_output_buf.length := by
  constructor
  · unfold footer_extra_msg
    rw [if_neg (by simp [hs])]
    have hc : s.cursor_pos + s.scroll_pos = s.absCursor := by
      unfold TereAppState.absCursor; omega
    rw [hc]
  · unfold footer_extra_msg
    rw [if_pos (by simp [ht]), hk]

/-- C8 witness: concrete footer strings for the browsing state `sBrowse` and
the searching state `sBeta`. -/
theorem footer_format_witness :
    footer_extra_msg sBrowse =
      toString (sBrowse.absCursor + 1) ++ " / " ++ toString sBrowse.ls_output_buf.length
    ∧ footer_extra_msg sBeta =
      toString (0 + 1) ++ " / " ++ toString sBeta.search_matches.length
        ++ " / " ++ toString sBeta.ls_output_buf.length :=
  ⟨(footer_format sBrowse sBeta 0 rfl rfl rfl).1,
   (footer_format sBrowse sBeta 0 rfl rfl rfl).2⟩

/-- The environment of an error-free session. -/
def envNormal : MainEnv :=
  { enterAltOk := true, rawModeOk := true, sessionRes := Except.ok (),
    leaveAltOk := true, disableRawOk := true, cwd := "/home/user" }

/-- The environment of a session whose init or event loop fails. -/
def envLoopErr : MainEnv :=
  { envNormal with sessionRes := Except.error "error in main event loop" }

/-- The environment in which enabling raw terminal mode fails at startup. -/
def envRawFail : MainEnv :=
  { envNormal with rawModeOk := false }

/-- C9: normal termination prints the final working directory and exits 0, and
an init/event-loop failure exits non-zero after the terminal is restored — but
when `enable_raw_mode` itself fails, the process exits non-zero having never
left the alternate screen nor re-shown the cursor: the restore-before-exit
guarantee is broken on that path (the source marks the missing cleanup with a
TODO). -/
theorem main_raw_mode_failure_no_cleanup :
    (main envNormal).2 = 0
    ∧ TermAction.printLn "/home/user" ∈ (main envNormal).1
    ∧ (main envLoopErr).2 ≠ 0
    ∧ TermAction.leaveAltScreen ∈ (main envLoopErr).1
    ∧ TermAction.showCursor ∈ (main envLoopErr).1
    ∧ TermAction.disableRawMode ∈ (main envLoopErr).1
    ∧ (main envRawFail).2 ≠ 0
    ∧ TermAction.enterAltScreen ∈ (main envRawFail).1
    ∧ TermAction.leaveAltScreen ∉ (main envRawFail).1
    ∧ TermAction.showCursor ∉ (main envRawFail).1 := by
  decide

/-- C10: while a search is active, page-up, page-down, home and end leave the
whole application state untouched. -/
theorem searching_page_home_end_noop (s : TereAppState) (h : s.is_searching = true) :
    TereTui.on_page_up_down s true = s
    ∧ TereTui.on_page_up_down s false = s
    ∧ TereTui.on_home_end s true = s
    ∧ TereTui.on_home_end s false = s := by
  refine ⟨?_, ?_, ?_, ?_⟩ <;>
    · first
      | (unfold TereTui.on_page_up_down; rw [h]; rfl)
      | (unfold TereTui.on_home_end; rw [h]; rfl)

/-- C10 witness: in the searching state `sBeta` the four keys are no-ops. -/
theorem searching_page_home_end_noop_witness :
    TereTui.on_page_up_down sBeta true = sBeta
    ∧ TereTui.on_page_up_down sBeta false = sBeta
    ∧ TereTui.on_home_end sBeta true = sBeta
    ∧ TereTui.on_home_end sBeta false = sBeta :=
  searching_page_home_end_noop sBeta rfl

end Tere
